import Mathlib

/-!
Shallow embedding of the 2D-Aerofoil-Transformation repository.

The repository stores airfoil coordinates in a pandas DataFrame with columns
`X` and `Y`; `airfoil.py` defines three transforms:

* `twist_airfoil_ledge df angle_degrees` — rotates every `(X, Y)` row about the
  origin `(0, 0)` by `radians angle_degrees`, via the matrix
  `[[cos, -sin], [sin, cos]]` applied through `np.dot(coords, R.T)`, and stores
  the result in new columns `X_twisted` / `Y_twisted` on a copy of the input.
* `twist_airfoil_centroid df angle_degrees` — same rotation, but the rows are
  first translated so the centroid (column means) sits at the origin and
  translated back afterwards.
* `scale_airfoil df scale_factor` — `X_scaled = centroid_x + (X - centroid_x) * s`
  and likewise for `Y`.

`plot.py` builds two matplotlib sliders whose configuration (`valmin`,
`valmax`, `valinit`) is the UI parameter state at startup.

Columns are embedded as `List ℝ`; a DataFrame carries the invariant that its
two columns have equal length (pandas columns always do).  Floating point is
idealised as ℝ: the float functions `math.radians`, `math.cos`, `math.sin`
become the corresponding real functions.
-/

/-- A pandas DataFrame holding the airfoil coordinates: two equal-length
columns `X` and `Y`. -/
structure DataFrame where
  X : List ℝ
  Y : List ℝ
  hlen : X.length = Y.length

/-- Result frame of the two twist functions: the copied original columns plus
the new `X_twisted` / `Y_twisted` columns. -/
structure TwistResult where
  X : List ℝ
  Y : List ℝ
  X_twisted : List ℝ
  Y_twisted : List ℝ

/-- Result frame of `scale_airfoil`: the copied original columns plus the new
`X_scaled` / `Y_scaled` columns. -/
structure ScaleResult where
  X : List ℝ
  Y : List ℝ
  X_scaled : List ℝ
  Y_scaled : List ℝ

/-- Python's `math.radians`: degrees to radians. -/
noncomputable def radians (angle_degrees : ℝ) : ℝ :=
  angle_degrees * Real.pi / 180

/-- The rotation matrix built in `twist_airfoil_ledge` / `twist_airfoil_centroid`:
`[[cos a, -sin a], [sin a, cos a]]`. -/
noncomputable def rotation_matrix (angle_rad : ℝ) : Matrix (Fin 2) (Fin 2) ℝ :=
  Matrix.of ![![Real.cos angle_rad, -Real.sin angle_rad],
              ![Real.sin angle_rad, Real.cos angle_rad]]

/-- One row of `np.dot(coords, rotation_matrix.T)`: the row vector `(x, y)`
multiplied by the transposed rotation matrix. -/
noncomputable def rotate_row (angle_rad x y : ℝ) : Fin 2 → ℝ :=
  Matrix.vecMul ![x, y] (rotation_matrix angle_rad).transpose

/-- `pandas.Series.mean`: arithmetic mean of a column.  (On an empty column
pandas yields NaN; here the junk value `0 / 0 = 0` plays that role — it is
never observable through the transforms, whose outputs on an empty frame have
zero rows.) -/
noncomputable def mean (l : List ℝ) : ℝ :=
  l.sum / l.length

/-- `twist_airfoil_ledge(df, angle_degrees)` from `src/airfoil.py`: rotate each
coordinate pair about the fixed origin `(0,0)` and store the results in the new
columns of a copy of `df`. -/
noncomputable def twist_airfoil_ledge (df : DataFrame) (angle_degrees : ℝ) :
    TwistResult :=
  let angle_rad := radians angle_degrees
  ⟨df.X, df.Y,
    List.zipWith (fun x y => rotate_row angle_rad x y 0) df.X df.Y,
    List.zipWith (fun x y => rotate_row angle_rad x y 1) df.X df.Y⟩

/-- `twist_airfoil_centroid(df, angle_degrees)` from `src/airfoil.py`: subtract
the centroid from each coordinate pair, rotate about the origin, add the
centroid back, and store the results in the new columns of a copy of `df`. -/
noncomputable def twist_airfoil_centroid (df : DataFrame) (angle_degrees : ℝ) :
    TwistResult :=
  let centroid_x := mean df.X
  let centroid_y := mean df.Y
  let angle_rad := radians angle_degrees
  ⟨df.X, df.Y,
    List.zipWith
      (fun x y => rotate_row angle_rad (x - centroid_x) (y - centroid_y) 0
        + centroid_x) df.X df.Y,
    List.zipWith
      (fun x y => rotate_row angle_rad (x - centroid_x) (y - centroid_y) 1
        + centroid_y) df.X df.Y⟩

/-- `scale_airfoil(df, scale_factor)` from `src/airfoil.py`:
`scaled = centroid + (original - centroid) * scale_factor`, stored in the new
columns of a copy of `df`. -/
noncomputable def scale_airfoil (df : DataFrame) (scale_factor : ℝ) :
    ScaleResult :=
  let centroid_x := mean df.X
  let centroid_y := mean df.Y
  ⟨df.X, df.Y,
    df.X.map (fun x => centroid_x + (x - centroid_x) * scale_factor),
    df.Y.map (fun y => centroid_y + (y - centroid_y) * scale_factor)⟩

/-- The twisted coordinates of a `twist_airfoil_ledge` result repackaged as a
DataFrame, so a second rotation can be applied to them (the two twisted
columns have equal length because both are zipped from the input columns). -/
noncomputable def twist_ledge_frame (df : DataFrame) (angle_degrees : ℝ) :
    DataFrame :=
  ⟨(twist_airfoil_ledge df angle_degrees).X_twisted,
   (twist_airfoil_ledge df angle_degrees).Y_twisted,
   by simp [twist_airfoil_ledge, List.length_zipWith]⟩

/-- Configuration of a matplotlib `Slider` as constructed in
`Plotting.__init__` (`src/plot.py`): its declared range and initial value. -/
structure SliderCfg where
  valmin : ℝ
  valmax : ℝ
  valinit : ℝ

/-- The angle slider of `Plotting.__init__`:
`Slider(..., valmin=-180, valmax=180, valinit=0, ...)`. -/
noncomputable def angle_slider : SliderCfg :=
  ⟨-180, 180, 0⟩

/-- The scale slider of `Plotting.__init__`:
`Slider(..., valmin=0.1, valmax=2.0, valinit=0, ...)`. -/
noncomputable def scale_slider : SliderCfg :=
  ⟨0.1, 2.0, 0⟩

/-- The unit square `[(0,0), (1,0), (1,1), (0,1)]` used by the spec's concrete
scenarios, as a DataFrame. -/
noncomputable def unitSquare : DataFrame :=
  ⟨[0, 1, 1, 0], [0, 0, 1, 1], rfl⟩

/-- The single point `(1, 0)`, as a DataFrame. -/
noncomputable def singlePoint : DataFrame :=
  ⟨[1], [0], rfl⟩

/-- The empty point set, as a DataFrame with zero rows. -/
def emptyDF : DataFrame :=
  ⟨[], [], rfl⟩

/-! ### Helper lemmas -/

/-- Unfolding `rotate_row` at index 0: `x * cos - y * sin`. -/
theorem rotate_row_zero (a x y : ℝ) :
    rotate_row a x y 0 = Real.cos a * x - Real.sin a * y := by
  simp [rotate_row, rotation_matrix, Matrix.vecMul, Matrix.dotProduct,
    Fin.sum_univ_two]
  ring

/-- Unfolding `rotate_row` at index 1: `x * sin + y * cos`. -/
theorem rotate_row_one (a x y : ℝ) :
    rotate_row a x y 1 = Real.sin a * x + Real.cos a * y := by
  simp [rotate_row, rotation_matrix, Matrix.vecMul, Matrix.dotProduct,
    Fin.sum_univ_two]
  ring

/-- `rotate_row` (a row times the transposed matrix, as in
`np.dot(coords, R.T)`) is the rotation matrix applied to `(x, y)` as a column
vector. -/
theorem rotate_row_eq_mulVec (a x y : ℝ) :
    rotate_row a x y = Matrix.mulVec (rotation_matrix a) ![x, y] := by
  simpa [rotate_row] using
    Matrix.vecMul_transpose (rotation_matrix a) ![x, y]

theorem radians_zero : radians 0 = 0 := by
  simp [radians]

theorem radians_neg (d : ℝ) : radians (-d) = -radians d := by
  simp [radians]
  ring

theorem radians_ninety : radians 90 = Real.pi / 2 := by
  unfold radians
  ring

theorem zipWith_congr_fun {f g : ℝ → ℝ → ℝ} (h : ∀ x y, f x y = g x y)
    (X Y : List ℝ) : List.zipWith f X Y = List.zipWith g X Y := by
  have hfg : f = g := funext fun x => funext fun y => h x y
  rw [hfg]

theorem zipWith_eq_left {f : ℝ → ℝ → ℝ} (h : ∀ x y, f x y = x) :
    ∀ (X Y : List ℝ), X.length = Y.length → List.zipWith f X Y = X
  | [], [], _ => rfl
  | x :: X, y :: Y, hl => by
    simp only [List.zipWith_cons_cons, h x y]
    exact congrArg (x :: ·) (zipWith_eq_left h X Y (by simpa using hl))

theorem map_eq_self {f : ℝ → ℝ} (h : ∀ x, f x = x) :
    ∀ l : List ℝ, l.map f = l
  | [] => rfl
  | x :: l => by
    simp only [List.map_cons, h x]
    exact congrArg (x :: ·) (map_eq_self h l)

theorem getD_map_of_lt (f : ℝ → ℝ) :
    ∀ (l : List ℝ) (i : ℕ), i < l.length → (l.map f).getD i 0 = f (l.getD i 0)
  | x :: l, 0, _ => rfl
  | x :: l, i + 1, hi => getD_map_of_lt f l i (by simpa using hi)

theorem getD_zipWith_of_lt (f : ℝ → ℝ → ℝ) :
    ∀ (X Y : List ℝ) (i : ℕ), i < X.length → X.length = Y.length →
      (List.zipWith f X Y).getD i 0 = f (X.getD i 0) (Y.getD i 0)
  | x :: X, y :: Y, 0, _, _ => rfl
  | x :: X, y :: Y, i + 1, hi, hl =>
    getD_zipWith_of_lt f X Y i (by simpa using hi) (by simpa using hl)

theorem sum_map_linear (a c : ℝ) :
    ∀ l : List ℝ, (l.map (fun x => a * x + c)).sum = a * l.sum + c * l.length
  | [] => by simp
  | x :: l => by
    simp [sum_map_linear a c l]
    ring

theorem sum_zipWith_linear (a b c : ℝ) :
    ∀ (X Y : List ℝ), X.length = Y.length →
      (List.zipWith (fun x y => a * x + b * y + c) X Y).sum
        = a * X.sum + b * Y.sum + c * X.length
  | [], [], _ => by simp
  | x :: X, y :: Y, hl => by
    simp [sum_zipWith_linear a b c X Y (by simpa using hl)]
    ring

theorem zipWith_eq_right {f : ℝ → ℝ → ℝ} (h : ∀ x y, f x y = y) :
    ∀ (X Y : List ℝ), X.length = Y.length → List.zipWith f X Y = Y
  | [], [], _ => rfl
  | x :: X, y :: Y, hl => by
    simp only [List.zipWith_cons_cons, h x y]
    exact congrArg (y :: ·) (zipWith_eq_right h X Y (by simpa using hl))

theorem zipWith_zipWith_same (f g h : ℝ → ℝ → ℝ) :
    ∀ X Y : List ℝ,
      List.zipWith f (List.zipWith g X Y) (List.zipWith h X Y)
        = List.zipWith (fun x y => f (g x y) (h x y)) X Y
  | [], _ => by simp
  | _ :: _, [] => by simp
  | x :: X, y :: Y => by
    simp only [List.zipWith_cons_cons]
    exact congrArg _ (zipWith_zipWith_same f g h X Y)

/-! ### Claim theorems -/

/-- C1: `twist_airfoil_ledge` maps each point `(x, y)` to the product of the
rotation matrix `[[cos th, -sin th], [sin th, cos th]]` (th the angle in
radians) with the column vector `(x, y)`, rotating about the fixed origin;
in particular the unit square rotated by 90 degrees yields exactly
`[(0,0), (0,1), (-1,1), (-1,0)]`. -/
theorem twist_ledge_is_matrix_rotation (df : DataFrame) (θ : ℝ) :
    ((twist_airfoil_ledge df θ).X_twisted
        = List.zipWith
            (fun x y => Matrix.mulVec (rotation_matrix (radians θ)) ![x, y] 0)
            df.X df.Y
      ∧ (twist_airfoil_ledge df θ).Y_twisted
        = List.zipWith
            (fun x y => Matrix.mulVec (rotation_matrix (radians θ)) ![x, y] 1)
            df.X df.Y)
    ∧ ((twist_airfoil_ledge unitSquare 90).X_twisted = [0, 0, -1, -1]
      ∧ (twist_airfoil_ledge unitSquare 90).Y_twisted = [0, 1, 1, 0]) := by
  refine ⟨⟨?_, ?_⟩, ?_, ?_⟩
  · exact zipWith_congr_fun
      (fun x y => congrFun (rotate_row_eq_mulVec (radians θ) x y) 0) df.X df.Y
  · exact zipWith_congr_fun
      (fun x y => congrFun (rotate_row_eq_mulVec (radians θ) x y) 1) df.X df.Y
  · norm_num [twist_airfoil_ledge, unitSquare, rotate_row_zero, radians_ninety,
      Real.cos_pi_div_two, Real.sin_pi_div_two]
  · norm_num [twist_airfoil_ledge, unitSquare, rotate_row_one, radians_ninety,
      Real.cos_pi_div_two, Real.sin_pi_div_two]

/-- C2 counterexample: `twist_airfoil_ledge` is NOT clockwise-positive — at
angle +90 degrees, the single point `(1, 0)` does not map to `(0, -1)`. -/
theorem twist_ledge_not_clockwise :
    ¬ ((twist_airfoil_ledge singlePoint 90).X_twisted = [0]
        ∧ (twist_airfoil_ledge singlePoint 90).Y_twisted = [-1]) := by
  intro h
  have h1 : (twist_airfoil_ledge singlePoint 90).Y_twisted = [1] := by
    norm_num [twist_airfoil_ledge, singlePoint, rotate_row_one, radians_ninety,
      Real.cos_pi_div_two, Real.sin_pi_div_two]
  rw [h1] at h
  have h2 := h.2
  norm_num at h2

/-- C2 amended: `twist_airfoil_ledge` is counterclockwise-positive (in the
standard orientation with the y axis pointing up): at angle +90 degrees the
point `(1, 0)` maps to `(0, 1)`. -/
theorem twist_ledge_counterclockwise :
    (twist_airfoil_ledge singlePoint 90).X_twisted = [0]
    ∧ (twist_airfoil_ledge singlePoint 90).Y_twisted = [1] := by
  constructor
  · norm_num [twist_airfoil_ledge, singlePoint, rotate_row_zero, radians_ninety,
      Real.cos_pi_div_two, Real.sin_pi_div_two]
  · norm_num [twist_airfoil_ledge, singlePoint, rotate_row_one, radians_ninety,
      Real.cos_pi_div_two, Real.sin_pi_div_two]

/-- C3: evaluation of `twist_airfoil_centroid` at the failing input — the
empty point set.  The code raises nothing: it returns normally, with an
empty (zero-row) result frame. -/
theorem twist_centroid_empty_returns_empty :
    twist_airfoil_centroid emptyDF 45 = ⟨[], [], [], []⟩ :=
  rfl

/-- C5: the neutral parameter is the identity for every transform: angle 0
for both twists and scale factor 1 for scaling reproduce the input columns
exactly. -/
theorem neutral_parameter_identity (df : DataFrame) :
    ((twist_airfoil_ledge df 0).X_twisted = df.X
      ∧ (twist_airfoil_ledge df 0).Y_twisted = df.Y)
    ∧ ((twist_airfoil_centroid df 0).X_twisted = df.X
      ∧ (twist_airfoil_centroid df 0).Y_twisted = df.Y)
    ∧ ((scale_airfoil df 1).X_scaled = df.X
      ∧ (scale_airfoil df 1).Y_scaled = df.Y) := by
  refine ⟨⟨?_, ?_⟩, ⟨?_, ?_⟩, ?_, ?_⟩
  · exact zipWith_eq_left
      (fun x y => by simp [rotate_row_zero, radians_zero]) df.X df.Y df.hlen
  · exact zipWith_eq_right
      (fun x y => by simp [rotate_row_one, radians_zero]) df.X df.Y df.hlen
  · exact zipWith_eq_left
      (fun x y => by simp [rotate_row_zero, radians_zero]) df.X df.Y df.hlen
  · exact zipWith_eq_right
      (fun x y => by simp [rotate_row_one, radians_zero]) df.X df.Y df.hlen
  · exact map_eq_self (fun x => by ring) df.X
  · exact map_eq_self (fun y => by ring) df.Y

/-- C10: every transform's result retains the input's original `X` and `Y`
columns unchanged; the transformed coordinates live in the separate new
columns. -/
theorem transforms_retain_original_columns (df : DataFrame) (θ s : ℝ) :
    ((twist_airfoil_ledge df θ).X = df.X ∧ (twist_airfoil_ledge df θ).Y = df.Y)
    ∧ ((twist_airfoil_centroid df θ).X = df.X
      ∧ (twist_airfoil_centroid df θ).Y = df.Y)
    ∧ ((scale_airfoil df s).X = df.X ∧ (scale_airfoil df s).Y = df.Y) :=
  ⟨⟨rfl, rfl⟩, ⟨rfl, rfl⟩, rfl, rfl⟩

/-- C4: `scale_airfoil` maps every coordinate, for every scale factor `s`
(zero and negative included), to `centroid + (original - centroid) * s`;
hence `s = 0` sends every point to the centroid, and the unit square scaled
by 2 yields exactly `[(-0.5,-0.5), (1.5,-0.5), (1.5,1.5), (-0.5,1.5)]`. -/
theorem scale_airfoil_formula (df : DataFrame) (s : ℝ) :
    ((scale_airfoil df s).X_scaled
        = df.X.map (fun x => mean df.X + (x - mean df.X) * s)
      ∧ (scale_airfoil df s).Y_scaled
        = df.Y.map (fun y => mean df.Y + (y - mean df.Y) * s))
    ∧ ((scale_airfoil df 0).X_scaled = df.X.map (fun _ => mean df.X)
      ∧ (scale_airfoil df 0).Y_scaled = df.Y.map (fun _ => mean df.Y))
    ∧ ((scale_airfoil unitSquare 2).X_scaled = [-0.5, 1.5, 1.5, -0.5]
      ∧ (scale_airfoil unitSquare 2).Y_scaled = [-0.5, -0.5, 1.5, 1.5]) := by
  refine ⟨⟨rfl, rfl⟩, ⟨?_, ?_⟩, ?_, ?_⟩
  · have hf : (fun x : ℝ => mean df.X + (x - mean df.X) * 0)
        = fun _ : ℝ => mean df.X := funext fun x => by ring
    show df.X.map (fun x => mean df.X + (x - mean df.X) * 0) = _
    rw [hf]
  · have hf : (fun y : ℝ => mean df.Y + (y - mean df.Y) * 0)
        = fun _ : ℝ => mean df.Y := funext fun y => by ring
    show df.Y.map (fun y => mean df.Y + (y - mean df.Y) * 0) = _
    rw [hf]
  · norm_num [scale_airfoil, unitSquare, mean]
  · norm_num [scale_airfoil, unitSquare, mean]

/-- C7: rotation about the origin is inverted exactly (over the reals) by the
opposite angle: re-rotating the twisted coordinates by the negated angle
reconstructs the original columns. -/
theorem twist_ledge_inverse (df : DataFrame) (θ : ℝ) :
    (twist_airfoil_ledge (twist_ledge_frame df θ) (-θ)).X_twisted = df.X
    ∧ (twist_airfoil_ledge (twist_ledge_frame df θ) (-θ)).Y_twisted = df.Y := by
  constructor
  · show List.zipWith _
        (List.zipWith (fun x y => rotate_row (radians θ) x y 0) df.X df.Y)
        (List.zipWith (fun x y => rotate_row (radians θ) x y 1) df.X df.Y)
      = df.X
    rw [zipWith_zipWith_same]
    refine zipWith_eq_left (fun x y => ?_) df.X df.Y df.hlen
    simp only [rotate_row_zero, rotate_row_one, radians_neg, Real.cos_neg,
      Real.sin_neg]
    linear_combination x * Real.sin_sq_add_cos_sq (radians θ)
  · show List.zipWith _
        (List.zipWith (fun x y => rotate_row (radians θ) x y 0) df.X df.Y)
        (List.zipWith (fun x y => rotate_row (radians θ) x y 1) df.X df.Y)
      = df.Y
    rw [zipWith_zipWith_same]
    refine zipWith_eq_right (fun x y => ?_) df.X df.Y df.hlen
    simp only [rotate_row_zero, rotate_row_one, radians_neg, Real.cos_neg,
      Real.sin_neg]
    linear_combination y * Real.sin_sq_add_cos_sq (radians θ)

/-- C9: evaluation of the startup UI parameter state — the angle slider is
created with initial value 0 as claimed, but the scale slider is created with
initial value 0, which is neither the neutral value 1 nor inside its own
declared range `[0.1, 2.0]`. -/
theorem slider_startup_defaults :
    angle_slider.valinit = 0
    ∧ scale_slider.valinit = 0
    ∧ scale_slider.valmin = 0.1
    ∧ scale_slider.valmax = 2
    ∧ scale_slider.valinit ≠ 1
    ∧ ¬ (scale_slider.valmin ≤ scale_slider.valinit
          ∧ scale_slider.valinit ≤ scale_slider.valmax) := by
  norm_num [angle_slider, scale_slider]

/-- C6: both centroid-based transforms preserve the centroid of a non-empty
point set: the column means of the scaled and of the centroid-twisted
coordinates equal the column means of the input, for every scale factor and
every angle. -/
theorem centroid_preserved (df : DataFrame) (s θ : ℝ) (h : df.X ≠ []) :
    (mean (scale_airfoil df s).X_scaled = mean df.X
      ∧ mean (scale_airfoil df s).Y_scaled = mean df.Y)
    ∧ (mean (twist_airfoil_centroid df θ).X_twisted = mean df.X
      ∧ mean (twist_airfoil_centroid df θ).Y_twisted = mean df.Y) := by
  have hn0 : df.X.length ≠ 0 := fun hc => h (List.length_eq_zero.mp hc)
  have hn : (df.X.length : ℝ) ≠ 0 := Nat.cast_ne_zero.mpr hn0
  have hYlen : df.Y.length = df.X.length := df.hlen.symm
  refine ⟨⟨?_, ?_⟩, ?_, ?_⟩
  · have hf : (fun x : ℝ => mean df.X + (x - mean df.X) * s)
        = fun x => s * x + (mean df.X - mean df.X * s) := funext fun x => by ring
    show mean (df.X.map (fun x => mean df.X + (x - mean df.X) * s)) = mean df.X
    rw [hf]
    simp only [mean, List.length_map]
    rw [sum_map_linear]
    field_simp
    ring
  · have hf : (fun y : ℝ => mean df.Y + (y - mean df.Y) * s)
        = fun y => s * y + (mean df.Y - mean df.Y * s) := funext fun y => by ring
    show mean (df.Y.map (fun y => mean df.Y + (y - mean df.Y) * s)) = mean df.Y
    rw [hf]
    simp only [mean, List.length_map]
    rw [sum_map_linear, hYlen]
    field_simp
    ring
  · have hf : ∀ x y : ℝ,
        rotate_row (radians θ) (x - mean df.X) (y - mean df.Y) 0 + mean df.X
          = Real.cos (radians θ) * x + (-Real.sin (radians θ)) * y
            + (mean df.X - Real.cos (radians θ) * mean df.X
                + Real.sin (radians θ) * mean df.Y) := fun x y => by
      rw [rotate_row_zero]; ring
    show mean (List.zipWith
        (fun x y =>
          rotate_row (radians θ) (x - mean df.X) (y - mean df.Y) 0 + mean df.X)
        df.X df.Y) = mean df.X
    rw [zipWith_congr_fun hf df.X df.Y]
    simp only [mean, List.length_zipWith]
    rw [sum_zipWith_linear _ _ _ df.X df.Y df.hlen, hYlen, min_self]
    field_simp
    ring
  · have hf : ∀ x y : ℝ,
        rotate_row (radians θ) (x - mean df.X) (y - mean df.Y) 1 + mean df.Y
          = Real.sin (radians θ) * x + Real.cos (radians θ) * y
            + (mean df.Y - Real.sin (radians θ) * mean df.X
                - Real.cos (radians θ) * mean df.Y) := fun x y => by
      rw [rotate_row_one]; ring
    show mean (List.zipWith
        (fun x y =>
          rotate_row (radians θ) (x - mean df.X) (y - mean df.Y) 1 + mean df.Y)
        df.X df.Y) = mean df.Y
    rw [zipWith_congr_fun hf df.X df.Y]
    simp only [mean, List.length_zipWith]
    rw [sum_zipWith_linear _ _ _ df.X df.Y df.hlen, hYlen, min_self]
    field_simp
    try ring

/-- C6 witness: the centroid-preservation theorem applied to the unit square
with scale factor 2 and angle 90. -/
theorem centroid_preserved_witness :
    unitSquare.X ≠ []
    ∧ ((mean (scale_airfoil unitSquare 2).X_scaled = mean unitSquare.X
        ∧ mean (scale_airfoil unitSquare 2).Y_scaled = mean unitSquare.Y)
      ∧ (mean (twist_airfoil_centroid unitSquare 90).X_twisted
            = mean unitSquare.X
        ∧ mean (twist_airfoil_centroid unitSquare 90).Y_twisted
            = mean unitSquare.Y)) :=
  ⟨by simp [unitSquare], centroid_preserved unitSquare 2 90 (by simp [unitSquare])⟩

/-- C8: every transform returns a new result structure (the input, a plain
value, is untouched) whose transformed coordinate columns have the same
length as the input columns, and output point `i` is precisely the transform
of input point `i`. -/
theorem transforms_length_and_correspondence (df : DataFrame) (θ s : ℝ)
    (i : ℕ) (hi : i < df.X.length) :
    ((twist_airfoil_ledge df θ).X_twisted.length = df.X.length
      ∧ (twist_airfoil_ledge df θ).Y_twisted.length = df.X.length
      ∧ (twist_airfoil_centroid df θ).X_twisted.length = df.X.length
      ∧ (twist_airfoil_centroid df θ).Y_twisted.length = df.X.length
      ∧ (scale_airfoil df s).X_scaled.length = df.X.length
      ∧ (scale_airfoil df s).Y_scaled.length = df.X.length)
    ∧ ((twist_airfoil_ledge df θ).X_twisted.getD i 0
          = rotate_row (radians θ) (df.X.getD i 0) (df.Y.getD i 0) 0
      ∧ (twist_airfoil_ledge df θ).Y_twisted.getD i 0
          = rotate_row (radians θ) (df.X.getD i 0) (df.Y.getD i 0) 1
      ∧ (twist_airfoil_centroid df θ).X_twisted.getD i 0
          = rotate_row (radians θ) (df.X.getD i 0 - mean df.X)
              (df.Y.getD i 0 - mean df.Y) 0 + mean df.X
      ∧ (twist_airfoil_centroid df θ).Y_twisted.getD i 0
          = rotate_row (radians θ) (df.X.getD i 0 - mean df.X)
              (df.Y.getD i 0 - mean df.Y) 1 + mean df.Y
      ∧ (scale_airfoil df s).X_scaled.getD i 0
          = mean df.X + (df.X.getD i 0 - mean df.X) * s
      ∧ (scale_airfoil df s).Y_scaled.getD i 0
          = mean df.Y + (df.Y.getD i 0 - mean df.Y) * s) := by
  have hiY : i < df.Y.length := df.hlen ▸ hi
  have hmin : min df.X.length df.Y.length = df.X.length := by
    rw [← df.hlen, min_self]
  refine ⟨⟨?_, ?_, ?_, ?_, ?_, ?_⟩, ?_, ?_, ?_, ?_, ?_, ?_⟩
  · show (List.zipWith _ df.X df.Y).length = df.X.length
    rw [List.length_zipWith, hmin]
  · show (List.zipWith _ df.X df.Y).length = df.X.length
    rw [List.length_zipWith, hmin]
  · show (List.zipWith _ df.X df.Y).length = df.X.length
    rw [List.length_zipWith, hmin]
  · show (List.zipWith _ df.X df.Y).length = df.X.length
    rw [List.length_zipWith, hmin]
  · show (df.X.map _).length = df.X.length
    rw [List.length_map]
  · show (df.Y.map _).length = df.X.length
    rw [List.length_map, ← df.hlen]
  · exact getD_zipWith_of_lt _ df.X df.Y i hi df.hlen
  · exact getD_zipWith_of_lt _ df.X df.Y i hi df.hlen
  · exact getD_zipWith_of_lt _ df.X df.Y i hi df.hlen
  · exact getD_zipWith_of_lt _ df.X df.Y i hi df.hlen
  · exact getD_map_of_lt _ df.X i hi
  · exact getD_map_of_lt _ df.Y i hiY

/-- C8 witness: the length-and-correspondence theorem applied to the unit
square with angle 90, scale factor 2, at index 0. -/
theorem transforms_length_and_correspondence_witness :
    0 < unitSquare.X.length
    ∧ (((twist_airfoil_ledge unitSquare 90).X_twisted.length
            = unitSquare.X.length
      ∧ (twist_airfoil_ledge unitSquare 90).Y_twisted.length
            = unitSquare.X.length
      ∧ (twist_airfoil_centroid unitSquare 90).X_twisted.length
            = unitSquare.X.length
      ∧ (twist_airfoil_centroid unitSquare 90).Y_twisted.length
            = unitSquare.X.length
      ∧ (scale_airfoil unitSquare 2).X_scaled.length = unitSquare.X.length
      ∧ (scale_airfoil unitSquare 2).Y_scaled.length = unitSquare.X.length)
    ∧ ((twist_airfoil_ledge unitSquare 90).X_twisted.getD 0 0
          = rotate_row (radians 90) (unitSquare.X.getD 0 0)
              (unitSquare.Y.getD 0 0) 0
      ∧ (twist_airfoil_ledge unitSquare 90).Y_twisted.getD 0 0
          = rotate_row (radians 90) (unitSquare.X.getD 0 0)
              (unitSquare.Y.getD 0 0) 1
      ∧ (twist_airfoil_centroid unitSquare 90).X_twisted.getD 0 0
          = rotate_row (radians 90)
              (unitSquare.X.getD 0 0 - mean unitSquare.X)
              (unitSquare.Y.getD 0 0 - mean unitSquare.Y) 0 + mean unitSquare.X
      ∧ (twist_airfoil_centroid unitSquare 90).Y_twisted.getD 0 0
          = rotate_row (radians 90)
              (unitSquare.X.getD 0 0 - mean unitSquare.X)
              (unitSquare.Y.getD 0 0 - mean unitSquare.Y) 1 + mean unitSquare.Y
      ∧ (scale_airfoil unitSquare 2).X_scaled.getD 0 0
          = mean unitSquare.X + (unitSquare.X.getD 0 0 - mean unitSquare.X) * 2
      ∧ (scale_airfoil unitSquare 2).Y_scaled.getD 0 0
          = mean unitSquare.Y
              + (unitSquare.Y.getD 0 0 - mean unitSquare.Y) * 2)) :=
  ⟨by simp [unitSquare],
   transforms_length_and_correspondence unitSquare 90 2 0 (by simp [unitSquare])⟩
